import Mathlib

/-!
Verification of the data-loading and filtering core of the Paris 2024
Olympics dashboard (`utils/data_loader.py` and the KPI computations of
the Overview and Global Analysis pages).

The embedding models a pandas DataFrame as a list of rows over named
columns.  A cell value is a string, an integer, or missing (pandas NaN).
Row lookup is first-match over an association list, so overwriting a
column (as the pages do for the total column) is modelled by prepending the new
binding.
-/

namespace Seds

/-- A cell value: a string, an integer, or missing (pandas NaN). -/
inductive Value where
  | str : String → Value
  | int : Int → Value
  | na  : Value
deriving DecidableEq, Repr

/-- Membership of `Series.isin(selected)` for one cell against a list of
selected strings.  In pandas a NaN cell and a numeric cell are never
members of a list of strings. -/
def valueMem (v : Value) (sel : List String) : Bool :=
  match v with
  | Value.str s => sel.contains s
  | Value.int _ => false
  | Value.na => false

/-- Key comparison used by `DataFrame.merge`: pandas factorizes the key
columns, and the missing keys of both sides land in one common group,
so a NaN key matches a NaN key; all keys match by equality. -/
def Value.joinEq (a b : Value) : Bool :=
  decide (a = b)

/-- Element-wise `+` on cells: integers add, strings concatenate,
anything involving a missing value is missing. -/
def Value.add (a b : Value) : Value :=
  match a, b with
  | Value.int m, Value.int n => Value.int (m + n)
  | Value.str s, Value.str t => Value.str (s ++ t)
  | _, _ => Value.na

/-- The integer content of a cell, with missing and non-numeric cells
contributing `0`, as in pandas column sums which skip NaN. -/
def Value.toIntD (v : Value) : Int :=
  match v with
  | Value.int n => n
  | _ => 0

/-- A row: an association list from column name to cell value.
Lookup is first-match, so a prepended binding shadows an older one. -/
abbrev Row := List (String × Value)

/-- Cell access `row[col]`: the cell under a column name, missing when the row has
no binding for it. -/
def Row.get (r : Row) (c : String) : Value :=
  (List.lookup c r).getD Value.na

/-- Column assignment `row[col] = v`, modelled by prepending: lookup is
first-match, so the new binding shadows any older one. -/
def Row.set (r : Row) (c : String) (v : Value) : Row :=
  (c, v) :: r

/-- A DataFrame: a list of column names and a list of rows. -/
structure DataFrame where
  columns : List String
  rows : List Row
deriving DecidableEq, Repr

/-- Copying: `df.copy()` returns a frame with the same content; the fact that it
is a fresh, independent object is captured by the heap model below. -/
def DataFrame.copy (d : DataFrame) : DataFrame := d

/-- Boolean-mask filtering `df[df[col].isin(sel)]`: keeps the rows whose
cell under `col` is one of the selected strings.  In pandas this
indexing returns a new frame and never mutates its operand. -/
def maskIsin (df : DataFrame) (col : String) (sel : List String) : DataFrame :=
  { columns := df.columns,
    rows := df.rows.filter (fun r => valueMem (Row.get r col) sel) }

/-- Column projection `df[[c1, ..., ck]]`. -/
def selectCols (df : DataFrame) (cols : List String) : DataFrame :=
  { columns := cols,
    rows := df.rows.map (fun r => cols.map (fun c => (c, Row.get r c))) }

/-- Left join `left.merge(right, left_on=lkey, right_on=rkey, how=left)`:
every left row is paired with each right row whose `rkey` cell matches
its `lkey` cell (missing keys match missing keys, as pandas factorize
groups them together); a left row with no match is kept once, with the
right columns missing. -/
def mergeLeftOn (left right : DataFrame) (lkey rkey : String) : DataFrame :=
  { columns := left.columns ++ right.columns,
    rows := left.rows.flatMap (fun r =>
      let hits := right.rows.filter (fun n => Value.joinEq (Row.get n rkey) (Row.get r lkey))
      if hits.isEmpty then [r ++ right.columns.map (fun c => (c, Value.na))]
      else hits.map (fun n => r ++ n)) }

/-- The sidebar filter selections passed to `apply_filters`.  In the
source this is a Python dict read with `filters.get(key)`; a missing
key and an empty selection behave identically (both falsy), so each is
modelled as the empty list. -/
structure Filters where
  countries : List String
  sports : List String
  medal_types : List String
  continents : List String
deriving DecidableEq, Repr

/-- The country stage of `apply_filters`: when countries are selected,
filter on `country_code` if that column exists, else on `code` if that
exists, else leave the frame unchanged. -/
def countriesStep (df : DataFrame) (filters : Filters) : DataFrame :=
  if filters.countries ≠ [] then
    if df.columns.contains "country_code" then
      maskIsin df "country_code" filters.countries
    else if df.columns.contains "code" then
      maskIsin df "code" filters.countries
    else df
  else df

/-- The sport stage: filter on `sport` when sports are selected and the
column exists. -/
def sportsStep (df : DataFrame) (filters : Filters) : DataFrame :=
  if filters.sports ≠ [] ∧ df.columns.contains "sport" then
    maskIsin df "sport" filters.sports
  else df

/-- The medal-type stage: filter on `medal_type` when medal types are
selected and the column exists. -/
def medalTypesStep (df : DataFrame) (filters : Filters) : DataFrame :=
  if filters.medal_types ≠ [] ∧ df.columns.contains "medal_type" then
    maskIsin df "medal_type" filters.medal_types
  else df

/-- The continent stage: filter on `continent` when continents are
selected and the column exists. -/
def continentsStep (df : DataFrame) (filters : Filters) : DataFrame :=
  if filters.continents ≠ [] ∧ df.columns.contains "continent" then
    maskIsin df "continent" filters.continents
  else df

/-- Function `apply_filters(data, filters)` from `utils/data_loader.py`: copy the
input, then apply the country, sport, medal-type and continent filters
in turn, each only when its selection is non-empty and its column
exists. -/
def apply_filters (data : DataFrame) (filters : Filters) : DataFrame :=
  let df := data.copy
  let df := countriesStep df filters
  let df := sportsStep df filters
  let df := medalTypesStep df filters
  let df := continentsStep df filters
  df

/-- The hardcoded IOC-code → continent dictionary returned by
`get_continent_mapping` in `utils/data_loader.py`, entry for entry.
The dict literal has no duplicate keys, so first-match lookup agrees
with Python dict lookup. -/
def continent_map : List (String × String) :=
[ ("ALB", "Europe"), ("AND", "Europe"), ("ARM", "Europe"), ("AUT", "Europe"), ("AZE", "Europe"),
   ("BLR", "Europe"), ("BEL", "Europe"), ("BIH", "Europe"), ("BUL", "Europe"), ("CRO", "Europe"),
   ("CYP", "Europe"), ("CZE", "Europe"), ("DEN", "Europe"), ("ESP", "Europe"), ("EST", "Europe"),
   ("FIN", "Europe"), ("FRA", "Europe"), ("GBR", "Europe"), ("GEO", "Europe"), ("GER", "Europe"),
   ("GRE", "Europe"), ("HUN", "Europe"), ("IRL", "Europe"), ("ISL", "Europe"), ("ISR", "Europe"),
   ("ITA", "Europe"), ("KOS", "Europe"), ("LAT", "Europe"), ("LIE", "Europe"), ("LTU", "Europe"),
   ("LUX", "Europe"), ("MDA", "Europe"), ("MKD", "Europe"), ("MLT", "Europe"), ("MNE", "Europe"),
   ("NED", "Europe"), ("NOR", "Europe"), ("POL", "Europe"), ("POR", "Europe"), ("ROU", "Europe"),
   ("SRB", "Europe"), ("SVK", "Europe"), ("SLO", "Europe"), ("SUI", "Europe"), ("SWE", "Europe"),
   ("TUR", "Europe"), ("UKR", "Europe"), ("SMR", "Europe"), ("MON", "Europe"), ("AFG", "Asia"),
   ("BRN", "Asia"), ("BAN", "Asia"), ("BHU", "Asia"), ("BRU", "Asia"), ("CAM", "Asia"),
   ("CHN", "Asia"), ("TPE", "Asia"), ("IND", "Asia"), ("INA", "Asia"), ("IRI", "Asia"),
   ("IRQ", "Asia"), ("JPN", "Asia"), ("JOR", "Asia"), ("KAZ", "Asia"), ("KOR", "Asia"),
   ("KUW", "Asia"), ("KGZ", "Asia"), ("LAO", "Asia"), ("LBN", "Asia"), ("MAS", "Asia"),
   ("MDV", "Asia"), ("MGL", "Asia"), ("MYA", "Asia"), ("NEP", "Asia"), ("OMA", "Asia"),
   ("PAK", "Asia"), ("PLE", "Asia"), ("PHI", "Asia"), ("QAT", "Asia"), ("KSA", "Asia"),
   ("SGP", "Asia"), ("SRI", "Asia"), ("SYR", "Asia"), ("TJK", "Asia"), ("THA", "Asia"),
   ("TLS", "Asia"), ("TKM", "Asia"), ("UAE", "Asia"), ("UZB", "Asia"), ("VIE", "Asia"),
   ("YEM", "Asia"), ("HKG", "Asia"), ("PRK", "Asia"), ("ALG", "Africa"), ("ANG", "Africa"),
   ("BEN", "Africa"), ("BOT", "Africa"), ("BUR", "Africa"), ("BDI", "Africa"), ("CMR", "Africa"),
   ("CPV", "Africa"), ("CAF", "Africa"), ("CHA", "Africa"), ("COM", "Africa"), ("CGO", "Africa"),
   ("CIV", "Africa"), ("COD", "Africa"), ("DJI", "Africa"), ("EGY", "Africa"), ("GEQ", "Africa"),
   ("ERI", "Africa"), ("ETH", "Africa"), ("GAB", "Africa"), ("GAM", "Africa"), ("GHA", "Africa"),
   ("GUI", "Africa"), ("GBS", "Africa"), ("KEN", "Africa"), ("LES", "Africa"), ("LBR", "Africa"),
   ("LBA", "Africa"), ("MAD", "Africa"), ("MAW", "Africa"), ("MLI", "Africa"), ("MRI", "Africa"),
   ("MAR", "Africa"), ("MOZ", "Africa"), ("NAM", "Africa"), ("NIG", "Africa"), ("NGR", "Africa"),
   ("RWA", "Africa"), ("STP", "Africa"), ("SEN", "Africa"), ("SEY", "Africa"), ("SLE", "Africa"),
   ("SOM", "Africa"), ("RSA", "Africa"), ("SSD", "Africa"), ("SUD", "Africa"), ("TAN", "Africa"),
   ("TOG", "Africa"), ("TUN", "Africa"), ("UGA", "Africa"), ("ZAM", "Africa"), ("ZIM", "Africa"),
   ("ANT", "North America"), ("ARU", "North America"), ("BAH", "North America"), ("BAR", "North America"), ("BIZ", "North America"),
   ("BER", "North America"), ("CAN", "North America"), ("CAY", "North America"), ("CRC", "North America"), ("CUB", "North America"),
   ("DMA", "North America"), ("DOM", "North America"), ("ESA", "North America"), ("GRN", "North America"), ("GUA", "North America"),
   ("HAI", "North America"), ("HON", "North America"), ("JAM", "North America"), ("MEX", "North America"), ("NCA", "North America"),
   ("PAN", "North America"), ("PUR", "North America"), ("SKN", "North America"), ("LCA", "North America"), ("VIN", "North America"),
   ("TTO", "North America"), ("USA", "North America"), ("ISV", "North America"), ("ARG", "South America"), ("BOL", "South America"),
   ("BRA", "South America"), ("CHI", "South America"), ("COL", "South America"), ("ECU", "South America"), ("GUY", "South America"),
   ("PAR", "South America"), ("PER", "South America"), ("SUR", "South America"), ("URU", "South America"), ("VEN", "South America"),
   ("ASA", "Oceania"), ("AUS", "Oceania"), ("COK", "Oceania"), ("FIJ", "Oceania"), ("FSM", "Oceania"),
   ("GUM", "Oceania"), ("KIR", "Oceania"), ("MHL", "Oceania"), ("NRU", "Oceania"), ("NZL", "Oceania"),
   ("PLW", "Oceania"), ("PNG", "Oceania"), ("SAM", "Oceania"), ("SOL", "Oceania"), ("TGA", "Oceania"),
   ("TUV", "Oceania"), ("VAN", "Oceania")]

/-- One row of the nocs enrichment
`nocs[continent] = nocs[code].map(continent_map).fillna(Other)`:
look the row's `code` up in the dictionary; any code not found — and a
missing or non-string code, for which `.map` yields NaN — falls back to
`Other` via `.fillna`. -/
def enrichRow (r : Row) : Row :=
  Row.set r "continent"
    (match Row.get r "code" with
     | Value.str c =>
         match continent_map.lookup c with
         | some cont => Value.str cont
         | none => Value.str "Other"
     | _ => Value.str "Other")

/-- The nocs enrichment in `load_all_data`: assign the `continent`
column on every row. -/
def enrichNocs (nocs : DataFrame) : DataFrame :=
  { columns := if nocs.columns.contains "continent" then nocs.columns
               else nocs.columns ++ ["continent"],
    rows := nocs.rows.map enrichRow }

/-- Table `medals_detail` from the Global Analysis page: the medals table
left-merged with the code and continent columns of nocs on
`country_code = code`, the nocs table having been enriched by
`load_all_data` first. -/
def medals_detail (medals nocs : DataFrame) : DataFrame :=
  mergeLeftOn medals (selectCols (enrichNocs nocs) ["code", "continent"])
    "country_code" "code"

/-- A heap of pandas objects: each allocated DataFrame lives in a cell,
and a reference is an index into the list. -/
abbrev Heap := List DataFrame

/-- Allocate a fresh cell holding `d`; returns the new heap and the
reference to the cell. -/
def heapAlloc (h : Heap) (d : DataFrame) : Heap × Nat :=
  (h ++ [d], h.length)

/-- Dereference: the frame in cell `p` (a dummy empty frame for a
dangling reference). -/
def heapRead (h : Heap) (p : Nat) : DataFrame :=
  h.getD p ⟨[], []⟩

/-- Function `apply_filters` at the object level: `df = data.copy()` allocates a
fresh frame, and each boolean-mask indexing allocates another (pandas
`df[mask]` returns a new object); the local name `df` is only rebound,
and no operation in the body writes to an existing cell.  Returns the
final heap and the reference to the returned frame. -/
def apply_filters_prog (h : Heap) (p : Nat) (filters : Filters) : Heap × Nat :=
  let data := heapRead h p
  let df0 := data.copy
  let df1 := countriesStep df0 filters
  let df2 := sportsStep df1 filters
  let df3 := medalTypesStep df2 filters
  let df4 := continentsStep df3 filters
  (h ++ [df0, df1, df2, df3, df4], h.length + 4)

/-- The sum of one numeric column, as pandas `df[col].sum()`: missing
cells are skipped (contribute 0). -/
def colSum (df : DataFrame) (c : String) : Int :=
  (df.rows.map (fun r => Value.toIntD (Row.get r c))).sum

/-- KPI `total_medals` from the Overview page:
`int(filtered_medals[[Gold Medal, Silver Medal, Bronze Medal]].sum().sum())` —
sum each of the three medal columns, then sum the three results. -/
def total_medals (filtered_medals : DataFrame) : Int :=
  (["Gold Medal", "Silver Medal", "Bronze Medal"].map
    (fun c => colSum filtered_medals c)).sum

/-- The Overview page's per-country total column:
`filtered_medals[total] = filtered_medals[Gold Medal] + filtered_medals[Silver Medal] + filtered_medals[Bronze Medal]`
(Python `+` is left-associative). -/
def addTotalColumn (filtered_medals : DataFrame) : DataFrame :=
  { columns := if filtered_medals.columns.contains "total" then filtered_medals.columns
               else filtered_medals.columns ++ ["total"],
    rows := filtered_medals.rows.map (fun r =>
      Row.set r "total"
        (Value.add (Value.add (Row.get r "Gold Medal") (Row.get r "Silver Medal"))
          (Row.get r "Bronze Medal"))) }

/-- The Global Analysis page's per-country total column:
`medals_df[total_medals] = medals_df[Gold Medal] + medals_df[Silver Medal] + medals_df[Bronze Medal]`. -/
def addTotalMedalsColumn (medals_df : DataFrame) : DataFrame :=
  { columns := if medals_df.columns.contains "total_medals" then medals_df.columns
               else medals_df.columns ++ ["total_medals"],
    rows := medals_df.rows.map (fun r =>
      Row.set r "total_medals"
        (Value.add (Value.add (Row.get r "Gold Medal") (Row.get r "Silver Medal"))
          (Row.get r "Bronze Medal"))) }

/-- Column statistic `df[col].nunique()`: the number of distinct non-missing values in a
column (pandas `nunique` excludes NaN). -/
def nunique (df : DataFrame) (c : String) : Nat :=
  ((df.rows.map (fun r => Row.get r c)).filter (fun v => v ≠ Value.na)).dedup.length

/-- KPI `total_countries` from the Overview page:
`filtered_athletes[country_code].nunique() if len(filtered_athletes) > 0 else 0`. -/
def total_countries (filtered_athletes : DataFrame) : Nat :=
  if filtered_athletes.rows.length > 0 then nunique filtered_athletes "country_code"
  else 0


/-! ## Helper lemmas about rows, lookup and the filter stages -/

/-- Reading back the column just assigned gives the assigned value. -/
theorem Row.get_set_self (r : Row) (c : String) (v : Value) :
    Row.get (Row.set r c v) c = v := by
  simp [Row.get, Row.set, List.lookup]

/-- Assigning one column leaves every other column unchanged. -/
theorem Row.get_set_ne (r : Row) (c c' : String) (v : Value) (h : c' ≠ c) :
    Row.get (Row.set r c v) c' = Row.get r c' := by
  have hb : (c' == c) = false := by simpa using h
  simp [Row.get, Row.set, List.lookup, hb]

/-- A successful association-list lookup exhibits a member of the list. -/
theorem mem_of_lookup_eq_some {l : List (String × String)} {k b : String}
    (h : List.lookup k l = some b) : (k, b) ∈ l := by
  induction l with
  | nil => simp [List.lookup] at h
  | cons p t ih =>
      rw [List.lookup_cons] at h
      rw [List.mem_cons]
      by_cases hk : k == p.1
      · simp [hk] at h
        have hkp : k = p.1 := by simpa using hk
        cases p
        simp_all
      · simp [hk] at h
        exact Or.inr (ih h)

/-- The country condition of the specification: when countries are
selected and a country column exists (`country_code`, or else `code`),
the row's value there must be one of the selected countries; otherwise
no condition. -/
def passesCountries (cols : List String) (filters : Filters) (r : Row) : Bool :=
  if filters.countries ≠ [] ∧ cols.contains "country_code" then
    valueMem (Row.get r "country_code") filters.countries
  else if filters.countries ≠ [] ∧ cols.contains "code" then
    valueMem (Row.get r "code") filters.countries
  else true

/-- The sport condition of the specification. -/
def passesSports (cols : List String) (filters : Filters) (r : Row) : Bool :=
  if filters.sports ≠ [] ∧ cols.contains "sport" then
    valueMem (Row.get r "sport") filters.sports
  else true

/-- The medal-type condition of the specification. -/
def passesMedalTypes (cols : List String) (filters : Filters) (r : Row) : Bool :=
  if filters.medal_types ≠ [] ∧ cols.contains "medal_type" then
    valueMem (Row.get r "medal_type") filters.medal_types
  else true

/-- The continent condition of the specification. -/
def passesContinents (cols : List String) (filters : Filters) (r : Row) : Bool :=
  if filters.continents ≠ [] ∧ cols.contains "continent" then
    valueMem (Row.get r "continent") filters.continents
  else true

/-- A row satisfies all active filters conjunctively: the country,
sport, medal-type and continent conditions all hold.  This is the
specification-side predicate, written from the words of the spec. -/
def satisfies_all_active_filters (cols : List String) (filters : Filters) (r : Row) : Bool :=
  passesCountries cols filters r && passesSports cols filters r &&
    passesMedalTypes cols filters r && passesContinents cols filters r

theorem countriesStep_columns (df : DataFrame) (f : Filters) :
    (countriesStep df f).columns = df.columns := by
  unfold countriesStep
  split
  · split
    · rfl
    · split <;> rfl
  · rfl

theorem sportsStep_columns (df : DataFrame) (f : Filters) :
    (sportsStep df f).columns = df.columns := by
  unfold sportsStep
  split <;> rfl

theorem medalTypesStep_columns (df : DataFrame) (f : Filters) :
    (medalTypesStep df f).columns = df.columns := by
  unfold medalTypesStep
  split <;> rfl

theorem continentsStep_columns (df : DataFrame) (f : Filters) :
    (continentsStep df f).columns = df.columns := by
  unfold continentsStep
  split <;> rfl

theorem countriesStep_rows (df : DataFrame) (f : Filters) :
    (countriesStep df f).rows = df.rows.filter (passesCountries df.columns f) := by
  unfold countriesStep passesCountries
  by_cases h1 : f.countries = []
  · have h0 : ¬ f.countries ≠ [] := fun hh => hh h1
    have hc1 : ¬ (f.countries ≠ [] ∧ df.columns.contains "country_code" = true) :=
      fun hh => hh.1 h1
    have hc2 : ¬ (f.countries ≠ [] ∧ df.columns.contains "code" = true) :=
      fun hh => hh.1 h1
    simp only [if_neg h0, if_neg hc1, if_neg hc2]
    simp
  · have h1x : f.countries ≠ [] := h1
    by_cases h2 : df.columns.contains "country_code" = true
    · simp only [if_pos h1x, if_pos h2, if_pos (And.intro h1x h2)]
      rfl
    · have hc1 : ¬ (f.countries ≠ [] ∧ df.columns.contains "country_code" = true) :=
        fun hh => h2 hh.2
      by_cases h3 : df.columns.contains "code" = true
      · simp only [if_pos h1x, if_neg h2, if_pos h3, if_neg hc1,
          if_pos (And.intro h1x h3)]
        rfl
      · have hc2 : ¬ (f.countries ≠ [] ∧ df.columns.contains "code" = true) :=
          fun hh => h3 hh.2
        simp only [if_pos h1x, if_neg h2, if_neg h3, if_neg hc1, if_neg hc2]
        simp

theorem sportsStep_rows (df : DataFrame) (f : Filters) :
    (sportsStep df f).rows = df.rows.filter (passesSports df.columns f) := by
  unfold sportsStep passesSports
  by_cases h : f.sports ≠ [] ∧ df.columns.contains "sport" = true
  · simp only [if_pos h]
    rfl
  · simp only [if_neg h]
    simp

theorem medalTypesStep_rows (df : DataFrame) (f : Filters) :
    (medalTypesStep df f).rows = df.rows.filter (passesMedalTypes df.columns f) := by
  unfold medalTypesStep passesMedalTypes
  by_cases h : f.medal_types ≠ [] ∧ df.columns.contains "medal_type" = true
  · simp only [if_pos h]
    rfl
  · simp only [if_neg h]
    simp

theorem continentsStep_rows (df : DataFrame) (f : Filters) :
    (continentsStep df f).rows = df.rows.filter (passesContinents df.columns f) := by
  unfold continentsStep passesContinents
  by_cases h : f.continents ≠ [] ∧ df.columns.contains "continent" = true
  · simp only [if_pos h]
    rfl
  · simp only [if_neg h]
    simp

/-- Filtering keeps the column list of its input. -/
theorem apply_filters_columns (data : DataFrame) (f : Filters) :
    (apply_filters data f).columns = data.columns := by
  unfold apply_filters DataFrame.copy
  rw [continentsStep_columns, medalTypesStep_columns, sportsStep_columns,
    countriesStep_columns]

/-- The rows of `apply_filters` are exactly the input rows filtered by
the conjunction of the four active-filter conditions. -/
theorem apply_filters_rows (data : DataFrame) (f : Filters) :
    (apply_filters data f).rows =
      data.rows.filter (satisfies_all_active_filters data.columns f) := by
  unfold apply_filters DataFrame.copy
  rw [continentsStep_rows, medalTypesStep_columns, sportsStep_columns,
    countriesStep_columns, medalTypesStep_rows, sportsStep_columns,
    countriesStep_columns, sportsStep_rows, countriesStep_columns,
    countriesStep_rows, List.filter_filter, List.filter_filter, List.filter_filter]
  apply List.filter_congr
  intro r _
  unfold satisfies_all_active_filters
  cases passesCountries data.columns f r <;> cases passesSports data.columns f r <;>
    cases passesMedalTypes data.columns f r <;> cases passesContinents data.columns f r <;>
    rfl


/-! ## Claim theorems -/

/-- C1: for every input DataFrame and filter selection, `apply_filters`
returns exactly the input rows that satisfy all active filters
conjunctively — country (on `country_code`, or else `code`), sport,
medal type and continent — where an empty selection or an absent column
imposes no condition. -/
theorem apply_filters_exactly_matching_rows (data : DataFrame) (filters : Filters) :
    (apply_filters data filters).rows =
      data.rows.filter (satisfies_all_active_filters data.columns filters) :=
  apply_filters_rows data filters

/-- C4: for every DataFrame and filter selection, the filtered row
count is at most the unfiltered row count. -/
theorem apply_filters_row_count_le (data : DataFrame) (filters : Filters) :
    (apply_filters data filters).rows.length ≤ data.rows.length := by
  rw [apply_filters_rows]
  exact List.length_filter_le _ _

/-- C8: filtering is deterministic — two calls of `apply_filters` on
equal inputs (same columns, same rows, same selections) return equal
DataFrames. -/
theorem apply_filters_deterministic (d1 d2 : DataFrame) (f1 f2 : Filters)
    (hc : d1.columns = d2.columns) (hr : d1.rows = d2.rows) (hf : f1 = f2) :
    apply_filters d1 f1 = apply_filters d2 f2 := by
  cases d1
  cases d2
  cases hf
  simp only at hc hr
  subst hc
  subst hr
  rfl

/-- Witness for C8 at a concrete table and selection. -/
theorem apply_filters_deterministic_witness :
    apply_filters ⟨["sport"], [[("sport", Value.str "Judo")]]⟩ ⟨[], ["Judo"], [], []⟩ =
      apply_filters ⟨["sport"], [[("sport", Value.str "Judo")]]⟩ ⟨[], ["Judo"], [], []⟩ :=
  apply_filters_deterministic _ _ _ _ rfl rfl rfl

/-- C9: `apply_filters` is idempotent — applying the same selections a
second time leaves the rows unchanged. -/
theorem apply_filters_idempotent (data : DataFrame) (filters : Filters) :
    (apply_filters (apply_filters data filters) filters).rows =
      (apply_filters data filters).rows := by
  rw [apply_filters_rows (apply_filters data filters) filters, apply_filters_columns,
    apply_filters_rows data filters, List.filter_filter]
  apply List.filter_congr
  intro r _
  exact Bool.and_self _

/-- C10: with every selection empty (equivalently, with the filter keys
absent, which `filters.get` reads the same way), `apply_filters` is the
identity on content: same rows and same columns. -/
theorem apply_filters_empty_filters_identity (data : DataFrame) :
    (apply_filters data ⟨[], [], [], []⟩).rows = data.rows ∧
      (apply_filters data ⟨[], [], [], []⟩).columns = data.columns := by
  constructor
  · rw [apply_filters_rows]
    have : ∀ r ∈ data.rows,
        satisfies_all_active_filters data.columns ⟨[], [], [], []⟩ r = true := by
      intro r _
      simp [satisfies_all_active_filters, passesCountries, passesSports,
        passesMedalTypes, passesContinents]
    rw [List.filter_congr this]
    simp
  · exact apply_filters_columns data _


/-- A one-row table with only an `event` column, used to test the
missing-column guard. -/
def eventOnlyDF : DataFrame := ⟨["event"], [[("event", Value.str "Final")]]⟩

/-- A selection with an active sport filter and nothing else. -/
def sportOnlyFilters : Filters := ⟨[], ["Judo"], [], []⟩

/-- C3 counterexample: on a table lacking the `sport` column, an active
sport filter does NOT fall back to an empty result — the rows come back
unchanged and non-empty, because the guard skips the filter. -/
theorem missing_column_keeps_rows_cex :
    (apply_filters eventOnlyDF sportOnlyFilters).rows = eventOnlyDF.rows ∧
      eventOnlyDF.rows ≠ [] := by
  constructor
  · rfl
  · intro h
    simp [eventOnlyDF] at h

/-- C3 amended: when a column named in an active filter is absent, the
existence-check guard makes that filter stage skip, leaving the frame
unchanged by it (it does not empty the result); and the KPI count over
an empty DataFrame falls back to zero. -/
theorem missing_column_guard_skips_filter :
    (∀ (df : DataFrame) (f : Filters),
        df.columns.contains "country_code" = false →
        df.columns.contains "code" = false → countriesStep df f = df)
    ∧ (∀ (df : DataFrame) (f : Filters),
        df.columns.contains "sport" = false → sportsStep df f = df)
    ∧ (∀ (df : DataFrame) (f : Filters),
        df.columns.contains "medal_type" = false → medalTypesStep df f = df)
    ∧ (∀ (df : DataFrame) (f : Filters),
        df.columns.contains "continent" = false → continentsStep df f = df)
    ∧ (∀ df : DataFrame, df.rows = [] → total_countries df = 0) := by
  refine ⟨?_, ?_, ?_, ?_, ?_⟩
  · intro df f h1 h2
    unfold countriesStep
    have hm1 : "country_code" ∉ df.columns := by simpa using h1
    have hm2 : "code" ∉ df.columns := by simpa using h2
    have hc1 : ¬ df.columns.contains "country_code" = true := by simp [hm1]
    have hc2 : ¬ df.columns.contains "code" = true := by simp [hm2]
    rw [if_neg hc1, if_neg hc2, ite_self]
  · intro df f h
    unfold sportsStep
    have hm : "sport" ∉ df.columns := by simpa using h
    have hc : ¬ (f.sports ≠ [] ∧ df.columns.contains "sport" = true) := by simp [hm]
    rw [if_neg hc]
  · intro df f h
    unfold medalTypesStep
    have hm : "medal_type" ∉ df.columns := by simpa using h
    have hc : ¬ (f.medal_types ≠ [] ∧ df.columns.contains "medal_type" = true) := by
      simp [hm]
    rw [if_neg hc]
  · intro df f h
    unfold continentsStep
    have hm : "continent" ∉ df.columns := by simpa using h
    have hc : ¬ (f.continents ≠ [] ∧ df.columns.contains "continent" = true) := by
      simp [hm]
    rw [if_neg hc]
  · intro df h
    simp [total_countries, h]

/-- Witness for the amended C3 at a concrete column-less table. -/
theorem missing_column_guard_skips_filter_witness :
    countriesStep eventOnlyDF sportOnlyFilters = eventOnlyDF ∧
      sportsStep eventOnlyDF sportOnlyFilters = eventOnlyDF ∧
      medalTypesStep eventOnlyDF sportOnlyFilters = eventOnlyDF ∧
      continentsStep eventOnlyDF sportOnlyFilters = eventOnlyDF ∧
      total_countries ⟨["country_code"], []⟩ = 0 :=
  ⟨missing_column_guard_skips_filter.1 eventOnlyDF sportOnlyFilters (by rfl) (by rfl),
   missing_column_guard_skips_filter.2.1 eventOnlyDF sportOnlyFilters (by rfl),
   missing_column_guard_skips_filter.2.2.1 eventOnlyDF sportOnlyFilters (by rfl),
   missing_column_guard_skips_filter.2.2.2.1 eventOnlyDF sportOnlyFilters (by rfl),
   missing_column_guard_skips_filter.2.2.2.2 ⟨["country_code"], []⟩ rfl⟩

/-- C5: the displayed totals are the per-medal-type columns added
together — the Overview KPI equals the three column sums added, the
Overview `total` column and the Global Analysis `total_medals` column
each equal the row's gold, silver and bronze cells added. -/
theorem displayed_total_eq_sum_of_medal_columns (df : DataFrame) :
    total_medals df =
      colSum df "Gold Medal" + colSum df "Silver Medal" + colSum df "Bronze Medal"
    ∧ (∀ r ∈ (addTotalColumn df).rows,
        Row.get r "total" =
          Value.add (Value.add (Row.get r "Gold Medal") (Row.get r "Silver Medal"))
            (Row.get r "Bronze Medal"))
    ∧ (∀ r ∈ (addTotalMedalsColumn df).rows,
        Row.get r "total_medals" =
          Value.add (Value.add (Row.get r "Gold Medal") (Row.get r "Silver Medal"))
            (Row.get r "Bronze Medal")) := by
  refine ⟨?_, ?_, ?_⟩
  · simp [total_medals]
    ring
  · intro r hr
    simp only [addTotalColumn, List.mem_map] at hr
    obtain ⟨r0, _, hr0⟩ := hr
    subst hr0
    rw [Row.get_set_self,
      Row.get_set_ne _ _ _ _ (by decide : "Gold Medal" ≠ "total"),
      Row.get_set_ne _ _ _ _ (by decide : "Silver Medal" ≠ "total"),
      Row.get_set_ne _ _ _ _ (by decide : "Bronze Medal" ≠ "total")]
  · intro r hr
    simp only [addTotalMedalsColumn, List.mem_map] at hr
    obtain ⟨r0, _, hr0⟩ := hr
    subst hr0
    rw [Row.get_set_self,
      Row.get_set_ne _ _ _ _ (by decide : "Gold Medal" ≠ "total_medals"),
      Row.get_set_ne _ _ _ _ (by decide : "Silver Medal" ≠ "total_medals"),
      Row.get_set_ne _ _ _ _ (by decide : "Bronze Medal" ≠ "total_medals")]

/-- A one-country medal-standings table used as a concrete witness. -/
def standingsDF : DataFrame :=
  ⟨["country_code", "Gold Medal", "Silver Medal", "Bronze Medal"],
   [[("country_code", Value.str "FRA"), ("Gold Medal", Value.int 16),
     ("Silver Medal", Value.int 26), ("Bronze Medal", Value.int 22)]]⟩

/-- Witness for C5 at a concrete medal-standings table. -/
theorem displayed_total_eq_sum_of_medal_columns_witness :
    total_medals standingsDF =
      colSum standingsDF "Gold Medal" + colSum standingsDF "Silver Medal" +
        colSum standingsDF "Bronze Medal"
    ∧ Row.get ((addTotalColumn standingsDF).rows.getD 0 []) "total" =
        Value.add
          (Value.add (Row.get ((addTotalColumn standingsDF).rows.getD 0 []) "Gold Medal")
            (Row.get ((addTotalColumn standingsDF).rows.getD 0 []) "Silver Medal"))
          (Row.get ((addTotalColumn standingsDF).rows.getD 0 []) "Bronze Medal") :=
  ⟨(displayed_total_eq_sum_of_medal_columns standingsDF).1,
   (displayed_total_eq_sum_of_medal_columns standingsDF).2.1 _ (by decide)⟩


/-- C6: `apply_filters` never modifies its input — at the object level,
the heap cell holding the input DataFrame is unchanged by the call, and
the returned reference points at a fresh cell holding the filtered
copy. -/
theorem apply_filters_preserves_input_heap (h : Heap) (p : Nat) (filters : Filters)
    (hp : p < h.length) :
    heapRead (apply_filters_prog h p filters).1 p = heapRead h p ∧
      heapRead (apply_filters_prog h p filters).1 (apply_filters_prog h p filters).2 =
        apply_filters (heapRead h p) filters := by
  constructor
  · show heapRead (h ++ _) p = heapRead h p
    unfold heapRead
    exact List.getD_append _ _ _ _ hp
  · show heapRead (h ++ _) (h.length + 4) = _
    unfold heapRead
    rw [List.getD_append_right _ _ _ _ (by omega)]
    have h4 : h.length + 4 - h.length = 4 := by omega
    rw [h4]
    rfl

/-- Witness for C6: a one-cell heap holding a concrete table. -/
theorem apply_filters_preserves_input_heap_witness :
    heapRead (apply_filters_prog [standingsDF] 0 sportOnlyFilters).1 0 =
        heapRead [standingsDF] 0 ∧
      heapRead (apply_filters_prog [standingsDF] 0 sportOnlyFilters).1
          (apply_filters_prog [standingsDF] 0 sportOnlyFilters).2 =
        apply_filters (heapRead [standingsDF] 0) sportOnlyFilters :=
  apply_filters_preserves_input_heap [standingsDF] 0 sportOnlyFilters (by decide)


/-- The seven continent labels a nocs row can end up with. -/
def allowedContinents : List String :=
  ["Europe", "Asia", "Africa", "North America", "South America", "Oceania", "Other"]

set_option maxRecDepth 4096 in
/-- Every value of the hardcoded mapping is one of the six continents
(and hence in the allowed list). -/
theorem continent_map_range : ∀ p ∈ continent_map, p.2 ∈ allowedContinents := by
  decide

/-- The continent cell produced by the enrichment for one row: always a
string from the allowed list, and determined by the row's code through
the mapping with fallback `Other`. -/
theorem enrichRow_continent (n : Row) :
    ∃ s, Row.get (enrichRow n) "continent" = Value.str s ∧ s ∈ allowedContinents ∧
      ∀ c, Row.get n "code" = Value.str c →
        (List.lookup c continent_map = some s ∨
          (List.lookup c continent_map = none ∧ s = "Other")) := by
  unfold enrichRow
  rw [Row.get_set_self]
  cases hv : Row.get n "code" with
  | str c =>
      cases hl : List.lookup c continent_map with
      | some cont =>
          refine ⟨cont, ?_, continent_map_range _ (mem_of_lookup_eq_some hl), ?_⟩
          · simp only [hl]
          · intro c' hc'
            injection hc' with hcc
            subst hcc
            exact Or.inl hl
      | none =>
          refine ⟨"Other", ?_, by decide, ?_⟩
          · simp only [hl]
          · intro c' hc'
            injection hc' with hcc
            subst hcc
            exact Or.inr ⟨hl, rfl⟩
  | int m =>
      refine ⟨"Other", rfl, by decide, ?_⟩
      intro c' hc'
      exact Value.noConfusion hc'
  | na =>
      refine ⟨"Other", rfl, by decide, ?_⟩
      intro c' hc'
      exact Value.noConfusion hc'

/-- C7: after the enrichment in `load_all_data`, every nocs row has a
continent drawn from Europe, Asia, Africa, North America, South
America, Oceania or Other; a code present in the hardcoded mapping gets
its mapped continent and every other code gets `Other`. -/
theorem enriched_nocs_continent_spec (nocs : DataFrame) :
    ∀ r ∈ (enrichNocs nocs).rows,
      ∃ s, Row.get r "continent" = Value.str s ∧ s ∈ allowedContinents ∧
        ∀ c, Row.get r "code" = Value.str c →
          (List.lookup c continent_map = some s ∨
            (List.lookup c continent_map = none ∧ s = "Other")) := by
  intro r hr
  simp only [enrichNocs, List.mem_map] at hr
  obtain ⟨n, _, hn⟩ := hr
  subst hn
  obtain ⟨s, hs, hmem, hdet⟩ := enrichRow_continent n
  refine ⟨s, hs, hmem, ?_⟩
  intro c hc
  apply hdet
  rw [← hc]
  show Row.get n "code" = Row.get (enrichRow n) "code"
  unfold enrichRow
  rw [Row.get_set_ne _ _ _ _ (by decide : "code" ≠ "continent")]

/-- A two-row nocs table: one code in the mapping, one not. -/
def nocsSample : DataFrame :=
  ⟨["code", "country"],
   [[("code", Value.str "FRA"), ("country", Value.str "France")],
    [("code", Value.str "EOR"), ("country", Value.str "Refugee Olympic Team")]]⟩

/-- Witness for C7 at a concrete nocs row. -/
theorem enriched_nocs_continent_spec_witness :
    ∃ s, Row.get ((enrichNocs nocsSample).rows.getD 0 []) "continent" = Value.str s ∧
      s ∈ allowedContinents ∧
      ∀ c, Row.get ((enrichNocs nocsSample).rows.getD 0 []) "code" = Value.str c →
        (List.lookup c continent_map = some s ∨
          (List.lookup c continent_map = none ∧ s = "Other")) :=
  enriched_nocs_continent_spec nocsSample _ (by decide)


/-- The projection a nocs row goes through on the right side of the
enrichment join. -/
def nocRowProj (n : Row) : Row :=
  ["code", "continent"].map (fun c => (c, Row.get n c))

/-- The right side of the join keeps the `code` cell of the nocs row it
came from. -/
theorem nocRowProj_enrich_code (n : Row) :
    Row.get (nocRowProj (enrichRow n)) "code" = Row.get n "code" := by
  show Row.get [("code", _), ("continent", _)] "code" = _
  rw [show Row.get [("code", Row.get (enrichRow n) "code"),
      ("continent", Row.get (enrichRow n) "continent")] "code" =
      Row.get (enrichRow n) "code" by simp [Row.get, List.lookup]]
  unfold enrichRow
  rw [Row.get_set_ne _ _ _ _ (by decide : "code" ≠ "continent")]

/-- A one-medal table whose country code appears in no nocs row. -/
def medalsNoNoc : DataFrame :=
  ⟨["country_code"], [[("country_code", Value.str "XYZ")]]⟩

/-- A nocs table with no rows at all. -/
def emptyNocs : DataFrame := ⟨["code"], []⟩

/-- C2 counterexample: a medal row whose country code matches no nocs
row comes out of the left enrichment join with a MISSING continent —
the `Other` fallback only applies to codes present in the nocs table. -/
theorem medals_detail_missing_continent_cex :
    ∃ r ∈ (medals_detail medalsNoNoc emptyNocs).rows,
      Row.get r "continent" = Value.na := by
  decide

/-- Appending a row that does not bind a column leaves that column of
the left row visible. -/
theorem Row.get_append_right_none (m q : Row) (c : String)
    (h : List.lookup c q = none) : Row.get (m ++ q) c = Row.get m c := by
  unfold Row.get
  rw [List.lookup_append, h, Option.or_none]

/-- When the left row does not bind a column, the appended right row
provides its value. -/
theorem Row.get_append_left_none (m q : Row) (c : String)
    (h : List.lookup c m = none) : Row.get (m ++ q) c = Row.get q c := by
  unfold Row.get
  rw [List.lookup_append, h, Option.none_or]

/-- Reading the continent cell of a two-column code/continent row. -/
theorem Row.get_pair_continent (va vb : Value) :
    Row.get [("code", va), ("continent", vb)] "continent" = vb := by
  simp [Row.get, List.lookup]

/-- C2 amended, per row of the join: provided the medals table carries
no continent column of its own, a joined row whose country code matches
the code of some nocs row has a non-missing continent (one of the six
continents or the Other fallback), while a joined row whose country
code matches no nocs code has a missing continent — the fallback is
applied to the nocs table, not to unmatched medal rows. -/
theorem medals_detail_continent_per_row (medals nocs : DataFrame)
    (hnocont : ∀ r ∈ medals.rows, List.lookup "continent" r = none) :
    ∀ r ∈ (medals_detail medals nocs).rows,
      ((∃ n ∈ nocs.rows,
          Value.joinEq (Row.get n "code") (Row.get r "country_code") = true) →
        ∃ s, Row.get r "continent" = Value.str s ∧ s ∈ allowedContinents) ∧
      ((∀ n ∈ nocs.rows,
          Value.joinEq (Row.get n "code") (Row.get r "country_code") = false) →
        Row.get r "continent" = Value.na) := by
  intro r hr
  unfold medals_detail mergeLeftOn at hr
  simp only [List.mem_flatMap] at hr
  obtain ⟨m, hm, hrm⟩ := hr
  by_cases hex : ∃ n ∈ nocs.rows,
      Value.joinEq (Row.get n "code") (Row.get m "country_code") = true
  · -- some nocs row matches this medal row: the join takes the hits branch
    obtain ⟨n, hn, hjoin⟩ := hex
    have hproj : nocRowProj (enrichRow n) ∈
        (selectCols (enrichNocs nocs) ["code", "continent"]).rows := by
      simp only [selectCols, enrichNocs, List.map_map]
      exact List.mem_map_of_mem _ hn
    have hhit : nocRowProj (enrichRow n) ∈
        (selectCols (enrichNocs nocs) ["code", "continent"]).rows.filter
          (fun p => Value.joinEq (Row.get p "code") (Row.get m "country_code")) := by
      rw [List.mem_filter]
      exact ⟨hproj, by rw [nocRowProj_enrich_code]; exact hjoin⟩
    rw [if_neg (by
      rw [List.isEmpty_eq_false.mpr (List.ne_nil_of_mem hhit)]
      exact Bool.false_ne_true)] at hrm
    rw [List.mem_map] at hrm
    obtain ⟨p, hp, hrp⟩ := hrm
    subst hrp
    have hpr := (List.mem_filter.mp hp).1
    simp only [selectCols, enrichNocs, List.map_map, List.mem_map] at hpr
    obtain ⟨n1, _, hn1⟩ := hpr
    obtain ⟨s, hs, hmem, _⟩ := enrichRow_continent n1
    have hpcc : List.lookup "country_code" p = none := by
      rw [show p = [("code", Row.get (enrichRow n1) "code"),
          ("continent", Row.get (enrichRow n1) "continent")] from hn1.symm]
      simp [List.lookup]
    have hcc : Row.get (m ++ p) "country_code" = Row.get m "country_code" :=
      Row.get_append_right_none m p "country_code" hpcc
    have hcont : Row.get (m ++ p) "continent" = Value.str s := by
      rw [Row.get_append_left_none m p "continent" (hnocont m hm),
        show p = [("code", Row.get (enrichRow n1) "code"),
          ("continent", Row.get (enrichRow n1) "continent")] from hn1.symm,
        Row.get_pair_continent]
      exact hs
    constructor
    · intro _
      exact ⟨s, hcont, hmem⟩
    · intro hall
      have hfalse := hall n hn
      rw [hcc] at hfalse
      rw [hjoin] at hfalse
      exact absurd hfalse (by decide)
  · -- no nocs row matches: the join takes the null-extension branch
    have hall : ∀ n ∈ nocs.rows,
        Value.joinEq (Row.get n "code") (Row.get m "country_code") = false := by
      intro n hn
      by_contra hne
      exact hex ⟨n, hn, by simpa using hne⟩
    have hempty : (selectCols (enrichNocs nocs) ["code", "continent"]).rows.filter
        (fun p => Value.joinEq (Row.get p "code") (Row.get m "country_code")) = [] := by
      rw [List.filter_eq_nil_iff]
      intro p hp
      simp only [selectCols, enrichNocs, List.map_map, List.mem_map] at hp
      obtain ⟨n1, hn1mem, hn1⟩ := hp
      have : Row.get p "code" = Row.get n1 "code" := by
        rw [← hn1]
        exact nocRowProj_enrich_code n1
      rw [this, hall n1 hn1mem]
      exact Bool.false_ne_true
    rw [if_pos (by rw [hempty]; rfl)] at hrm
    rw [List.mem_singleton] at hrm
    subst hrm
    have hqeq : (selectCols (enrichNocs nocs) ["code", "continent"]).columns.map
        (fun c => (c, Value.na)) = [("code", Value.na), ("continent", Value.na)] := rfl
    rw [hqeq]
    have hpcc : List.lookup "country_code"
        [("code", Value.na), ("continent", Value.na)] = none := by decide
    have hcc : Row.get (m ++ [("code", Value.na), ("continent", Value.na)])
        "country_code" = Row.get m "country_code" :=
      Row.get_append_right_none m _ "country_code" hpcc
    constructor
    · intro hexr
      obtain ⟨n, hn, hj⟩ := hexr
      rw [hcc] at hj
      rw [hall n hn] at hj
      exact absurd hj Bool.false_ne_true
    · intro _
      rw [Row.get_append_left_none m _ "continent" (hnocont m hm)]
      decide

/-- A two-medal table mixing a matched and an unmatched country code. -/
def medalsMixed : DataFrame :=
  ⟨["country_code"],
   [[("country_code", Value.str "FRA")], [("country_code", Value.str "XYZ")]]⟩

/-- Witness for the amended C2 on the mixed table: the matched row gets
a non-missing continent, the unmatched row a missing one. -/
theorem medals_detail_continent_per_row_witness :
    (∃ s, Row.get ((medals_detail medalsMixed nocsSample).rows.getD 0 [])
        "continent" = Value.str s ∧ s ∈ allowedContinents) ∧
      Row.get ((medals_detail medalsMixed nocsSample).rows.getD 1 [])
        "continent" = Value.na :=
  ⟨(medals_detail_continent_per_row medalsMixed nocsSample (by decide)
      ((medals_detail medalsMixed nocsSample).rows.getD 0 []) (by decide)).1 (by decide),
   (medals_detail_continent_per_row medalsMixed nocsSample (by decide)
      ((medals_detail medalsMixed nocsSample).rows.getD 1 []) (by decide)).2 (by decide)⟩

end Seds
